import Mathlib

/-!
Verification of the Budget-Saver application (src/app.py).

The file shallowly embeds the three components with real logic:
the OCR poll loop of `extract_text_from_receipt`, the classification
client `classify_items_with_ai` together with the analysis section of
the manual-entry tab, and the aggregator `_safe_sum` with the derived
savings quantities.  Remote HTTP interactions are modelled as explicit
input values (the sequence of poll responses, the outcome of the chat
completion request); Python floats are modelled as rationals.
-/

namespace BudgetSaver

/-! ## OCR data model (`extract_text_from_receipt`, src/app.py lines 85-117)

A poll response is the JSON object returned by a GET on the operation
location: an optional "status" string and the
`analyzeResult.readResults` pages, each page holding a list of lines,
each line holding a "text" string.  A missing field maps to the default
the Python code supplies via `.get`. -/

structure OcrTextLine where
  text : String
deriving DecidableEq

structure OcrPage where
  lines : List OcrTextLine
deriving DecidableEq

structure OcrPollResponse where
  status : Option String
  readResults : List OcrPage
deriving DecidableEq

/-- Python `str.lower()` on ASCII text: lowercase every character. -/
def lowerStr (s : String) : String :=
  ⟨s.data.map Char.toLower⟩

/-- Python `str.strip()`: drop whitespace from both ends. -/
def pyStrip (s : String) : String :=
  ⟨((s.data.dropWhile Char.isWhitespace).reverse.dropWhile Char.isWhitespace).reverse⟩

/-- `status = result.get("status", "").lower()` (line 100). -/
def statusOf (r : OcrPollResponse) : String :=
  lowerStr (r.status.getD "")

/-- The flattening of lines 103-109: for each page of
`analyzeResult.readResults` in order, for each line in order, strip the
text and keep it when nonempty. -/
def extractedLines (r : OcrPollResponse) : List String :=
  r.readResults.flatMap fun page =>
    (page.lines.map fun line => pyStrip line.text).filter fun txt => txt ≠ ""

def noTextMessage : String := "⚠️ No text found on this receipt."

def timeoutMessage : String := "⚠️ OCR timed out while reading the receipt."

def failedMessage : String := "⚠️ OCR failed to process the receipt."

def noOpLocationMessage : String := "⚠️ OCR did not return a valid Operation-Location."

/-- Line 110: `return "\n".join(lines) if lines else "⚠️ No text found..."`. -/
def succeededMessage (r : OcrPollResponse) : String :=
  let lines := extractedLines r
  if lines.isEmpty then noTextMessage else String.intercalate "\n" lines

/-- Observable events of the poll loop: an HTTP GET poll of the
operation location (tagged with its zero-based attempt index), or a
`time.sleep(1)` call. -/
inductive OcrEvent where
  | poll (attempt : Nat)
  | sleep
deriving DecidableEq

/-- The decision lines 102-112 take on one poll response: `some msg`
when the (lowercased) status is terminal and the loop returns `msg`,
`none` when the loop continues. -/
def pollAction (r : OcrPollResponse) : Option String :=
  if statusOf r = "succeeded" then some (succeededMessage r)
  else if statusOf r = "failed" then some failedMessage
  else none

/-- The `for _ in range(60)` loop of lines 96-115, generalised over the
starting attempt index `i` and the remaining iteration count `fuel`.
Returns the string the Python function returns together with the list
of poll and sleep events performed, in order.  Each non-terminal poll
is followed by `time.sleep(1)` (line 113); exhausting the fuel returns
the timeout sentinel (line 115). -/
def pollLoop (responses : Nat → OcrPollResponse) : Nat → Nat → String × List OcrEvent
  | _, 0 => (timeoutMessage, [])
  | i, fuel + 1 =>
    match pollAction (responses i) with
    | some msg => (msg, [OcrEvent.poll i])
    | none =>
      let rest := pollLoop responses (i + 1) fuel
      (rest.1, OcrEvent.poll i :: OcrEvent.sleep :: rest.2)

/-- The submission response: the optional `Operation-Location` header
and the optional `operationLocation` field of the JSON body (line 92). -/
structure SubmitResponse where
  headerOperationLocation : Option String
  bodyOperationLocation : Option String
deriving DecidableEq

/-- Python `a or b` on two optional strings: an absent or empty string
is falsy, so it falls through to `b`. -/
def pyOrStr (a b : Option String) : Option String :=
  match a with
  | some s => if s = "" then b else some s
  | none => b

/-- Python truthiness of an optional string (`if not op_location`). -/
def truthyStr : Option String → Bool
  | none => false
  | some s => decide (s ≠ "")

/-- Lines 92-115 of `extract_text_from_receipt`, from the point where
the submission response is in hand: extract the operation location from
header or body; when it is falsy return the protocol-error sentinel
without polling, otherwise run the 60-iteration poll loop. -/
def extract_text_from_receipt (submit : SubmitResponse)
    (responses : Nat → OcrPollResponse) : String × List OcrEvent :=
  let opLocation := pyOrStr submit.headerOperationLocation submit.bodyOperationLocation
  if truthyStr opLocation then pollLoop responses 0 60
  else (noOpLocationMessage, [])

/-- Number of poll attempts in an event list. -/
def countPolls (evs : List OcrEvent) : Nat :=
  evs.countP fun e => match e with | OcrEvent.poll _ => true | OcrEvent.sleep => false

/-- The event list of a run of `n` consecutive non-terminal attempts
starting at attempt `i`: poll `i`, sleep, poll `i+1`, sleep, ... -/
def fullTrace (i : Nat) : Nat → List OcrEvent
  | 0 => []
  | n + 1 => OcrEvent.poll i :: OcrEvent.sleep :: fullTrace (i + 1) n

lemma countPolls_nil : countPolls [] = 0 := rfl

lemma countPolls_fullTrace (n : Nat) : ∀ i, countPolls (fullTrace i n) = n := by
  induction n with
  | zero => intro i; rfl
  | succ n ih =>
    intro i
    have := ih (i + 1)
    simp only [fullTrace, countPolls, List.countP_cons] at this ⊢
    simp [this]

lemma countPolls_append (a b : List OcrEvent) :
    countPolls (a ++ b) = countPolls a + countPolls b := by
  simp [countPolls, List.countP_append]

lemma mem_fullTrace_poll (n : Nat) : ∀ i j, OcrEvent.poll j ∈ fullTrace i n → i ≤ j ∧ j < i + n := by
  induction n with
  | zero => intro i j h; simp [fullTrace] at h
  | succ n ih =>
    intro i j h
    simp only [fullTrace, List.mem_cons] at h
    rcases h with h | h | h
    · cases h; omega
    · cases h
    · have := ih (i + 1) j h
      omega

/-- A poll response on which the loop continues. -/
def nonterminal (r : OcrPollResponse) : Prop :=
  statusOf r ≠ "succeeded" ∧ statusOf r ≠ "failed"

instance (r : OcrPollResponse) : Decidable (nonterminal r) := by
  unfold nonterminal
  infer_instance

lemma pollAction_eq_none {r : OcrPollResponse} (h : nonterminal r) :
    pollAction r = none := by
  rcases h with ⟨h1, h2⟩
  simp [pollAction, h1, h2]

lemma pollLoop_timeout (responses : Nat → OcrPollResponse) :
    ∀ (fuel i : Nat), (∀ j, j < fuel → nonterminal (responses (i + j))) →
    pollLoop responses i fuel = (timeoutMessage, fullTrace i fuel) := by
  intro fuel
  induction fuel with
  | zero => intro i _; rfl
  | succ fuel ih =>
    intro i h
    have h0 : nonterminal (responses i) := by
      have := h 0 (Nat.succ_pos fuel); simpa using this
    have hrest : pollLoop responses (i + 1) fuel = (timeoutMessage, fullTrace (i + 1) fuel) := by
      apply ih
      intro j hj
      have hx := h (j + 1) (by omega)
      have harith : i + (j + 1) = i + 1 + j := by omega
      rwa [harith] at hx
    simp [pollLoop, pollAction_eq_none h0, hrest, fullTrace]

lemma pollLoop_terminal (responses : Nat → OcrPollResponse) (msg : String) :
    ∀ (m fuel i : Nat), m < fuel →
    (∀ j, j < m → nonterminal (responses (i + j))) →
    pollAction (responses (i + m)) = some msg →
    pollLoop responses i fuel = (msg, fullTrace i m ++ [OcrEvent.poll (i + m)]) := by
  intro m
  induction m with
  | zero =>
    intro fuel i hm _ hterm
    match fuel, hm with
    | fuel + 1, _ =>
      simp only [Nat.add_zero] at hterm
      simp [pollLoop, hterm, fullTrace]
  | succ m ih =>
    intro fuel i hm hpre hterm
    match fuel, hm with
    | fuel + 1, hm =>
      have h0 : nonterminal (responses i) := by
        have := hpre 0 (Nat.succ_pos m); simpa using this
      have hrest := ih fuel (i + 1) (by omega)
        (by intro j hj
            have hx := hpre (j + 1) (by omega)
            have harith : i + (j + 1) = i + 1 + j := by omega
            rwa [harith] at hx)
        (by have : i + 1 + m = i + (m + 1) := by omega
            rw [this]; exact hterm)
      have harith : i + 1 + m = i + (m + 1) := by omega
      simp [pollLoop, pollAction_eq_none h0, hrest, fullTrace, harith]

/-! ## Aggregator (`_safe_sum`, src/app.py lines 24-31)

A line item is a JSON object with "item", "quantity" and "price" keys.
`_safe_sum` only reads the "price" value, via
`float(it.get("price", 0) or 0)` inside a try/except: a missing key
yields the default 0, a falsy value (None, 0, empty string) is replaced
by 0 by `or 0`, `float` converts numbers and numeric strings, and any
conversion failure is swallowed so the item contributes 0.  Python
floats are modelled as rationals. -/

inductive PriceField where
  | missing
  | pyNone
  | num (q : ℚ)
  | numStr (q : ℚ)
  | badStr (s : String)
deriving DecidableEq

structure LineItem where
  item : String
  quantity : ℚ
  price : PriceField
deriving DecidableEq

/-- The value `float(it.get("price", 0) or 0)` produces for one item,
with 0 on the exception path (lines 27-30).  A numeric string is
truthy, so `float` receives it and yields its value; the empty string
is falsy, is replaced by 0 and cannot be a `numStr`. -/
def floatOfPrice : PriceField → ℚ
  | PriceField.missing => 0
  | PriceField.pyNone => 0
  | PriceField.num q => q
  | PriceField.numStr q => q
  | PriceField.badStr _ => 0

/-- `_safe_sum` (lines 24-31): fold over the items, adding each item's
price contribution to the running total, starting from 0. -/
def _safe_sum (items : List LineItem) : ℚ :=
  items.foldl (fun total it => total + floatOfPrice it.price) 0

/-- The well-formed numeric reading of a price: `some q` when the price
is a number or a numeric string, `none` when it is missing or not
parseable as a number. -/
def priceValue? : PriceField → Option ℚ
  | PriceField.num q => some q
  | PriceField.numStr q => some q
  | _ => none

lemma safe_sum_foldl (items : List LineItem) : ∀ acc : ℚ,
    items.foldl (fun total it => total + floatOfPrice it.price) acc =
      acc + (items.map fun it => floatOfPrice it.price).sum := by
  induction items with
  | nil => intro acc; simp
  | cons it items ih =>
    intro acc
    simp [List.foldl_cons, ih (acc + floatOfPrice it.price), add_assoc]

lemma safe_sum_eq_sum (items : List LineItem) :
    _safe_sum items = (items.map fun it => floatOfPrice it.price).sum := by
  simpa using safe_sum_foldl items 0

lemma floatOfPrice_of_value {p : PriceField} {q : ℚ} (h : priceValue? p = some q) :
    floatOfPrice p = q := by
  cases p <;> simp [priceValue?] at h <;> simp [floatOfPrice, h]

lemma floatOfPrice_of_none {p : PriceField} (h : priceValue? p = none) :
    floatOfPrice p = 0 := by
  cases p <;> simp [priceValue?] at h <;> simp [floatOfPrice]

/-! ## Analysis section of the manual-entry tab (src/app.py lines 181-201)

Given the classification data, the tab computes `essentials_total`,
`non_essentials_total`, `total_spent`, the two savings scenarios, and
renders the savings subsection (with the two percentages) only when
`total_spent > 0`. -/

structure SavingsSection where
  saving_remove : ℚ
  saving_half : ℚ
  pct_remove : ℚ
  pct_half : ℚ
deriving DecidableEq

structure Summary where
  essentials_total : ℚ
  non_essentials_total : ℚ
  total_spent : ℚ
  saving_remove : ℚ
  saving_half : ℚ
  savings : Option SavingsSection
deriving DecidableEq

/-- Lines 186-201: the numeric summary computed from the two item
lists.  `saving_remove` and `saving_half` are computed unconditionally
(lines 190-191); the savings section with its percentages only exists
under the `total_spent > 0` guard (lines 198-201). -/
def analysisSummary (essentials non_essentials : List LineItem) : Summary :=
  let essentials_total := _safe_sum essentials
  let non_essentials_total := _safe_sum non_essentials
  let total_spent := essentials_total + non_essentials_total
  let saving_remove := non_essentials_total
  let saving_half := non_essentials_total / 2
  { essentials_total := essentials_total
    non_essentials_total := non_essentials_total
    total_spent := total_spent
    saving_remove := saving_remove
    saving_half := saving_half
    savings :=
      if 0 < total_spent then
        some { saving_remove := saving_remove
               saving_half := saving_half
               pct_remove := saving_remove / total_spent * 100
               pct_half := saving_half / total_spent * 100 }
      else none }

/-! ## Classification client (`classify_items_with_ai`, src/app.py lines 36-80)

The remote interaction is modelled as an input value describing how the
try-block plays out.  The JSON object a successful `json.loads` yields
is a `ParsedDict`: each of the three expected keys optionally present,
plus a flag for any further keys (relevant for Python dict
truthiness). -/

structure ParsedDict where
  essentials : Option (List LineItem)
  non_essentials : Option (List LineItem)
  suggestions : Option (List String)
  extraKeys : Bool
deriving DecidableEq

/-- The extracted completion content `payload["choices"][0]["message"]["content"]`:
either `json.loads` succeeds on it and yields a dict, or it raises
`JSONDecodeError` leaving the raw string. -/
inductive CompletionContent where
  | parseable (d : ParsedDict)
  | unparseable (raw : String)
deriving DecidableEq

/-- How the try-block of lines 61-66 plays out: `raise_for_status`
raises an HTTPError; `resp.json()` raises a JSONDecodeError on a
non-JSON body; the content is extracted and handed to `json.loads`; or
some other exception (network failure, missing "choices" key, ...)
is raised. -/
inductive RemoteOutcome where
  | httpError (bodyText : String)
  | bodyNotJson
  | completion (content : CompletionContent)
  | otherExn (msg : String)
deriving DecidableEq

/-- What `classify_items_with_ai` does: either the parsed dict is
returned, or an error is displayed and `None` is returned.  The
constructor records what the except-branches show to the user. -/
inductive ClassifyOutcome where
  | parsed (d : ParsedDict)
  | malformedShown (shown : String)
  | httpErrorShown (shown : String)
  | unexpectedShown (msg : String)
deriving DecidableEq

/-- `classify_items_with_ai` (lines 61-80) as a function of the remote
outcome.  The `json.JSONDecodeError` branch (lines 67-70) shows the raw
content when `payload` was assigned and the placeholder string
otherwise; the `requests.HTTPError` branch (lines 71-77) shows the
response body; the catch-all (lines 78-80) shows the exception
message.  Every branch other than a successful parse returns `None`. -/
def classify_items_with_ai : RemoteOutcome → ClassifyOutcome
  | RemoteOutcome.completion (CompletionContent.parseable d) => ClassifyOutcome.parsed d
  | RemoteOutcome.completion (CompletionContent.unparseable raw) => ClassifyOutcome.malformedShown raw
  | RemoteOutcome.bodyNotJson => ClassifyOutcome.malformedShown "(no content)"
  | RemoteOutcome.httpError body => ClassifyOutcome.httpErrorShown body
  | RemoteOutcome.otherExn msg => ClassifyOutcome.unexpectedShown msg

/-- The value the caller receives: the parsed dict, or `None`. -/
def returnedData : ClassifyOutcome → Option ParsedDict
  | ClassifyOutcome.parsed d => some d
  | _ => none

/-- Whether the remote outcome is the unique success path (content
extracted and parseable). -/
def isParseableCompletion : RemoteOutcome → Bool
  | RemoteOutcome.completion (CompletionContent.parseable _) => true
  | _ => false

/-- The complete classification record the analysis section consumes. -/
structure ClassificationResult where
  essentials : List LineItem
  non_essentials : List LineItem
  suggestions : List String
deriving DecidableEq

/-- Lines 182-184: `data.get("essentials", [])` and friends — every
field is read with a default, so the record is always complete. -/
def buildResult (d : ParsedDict) : ClassificationResult :=
  { essentials := d.essentials.getD []
    non_essentials := d.non_essentials.getD []
    suggestions := d.suggestions.getD [] }

/-- Python truthiness of the parsed dict (`if data:` on line 181): a
dict is truthy if and only if it is nonempty. -/
def dictTruthy (d : ParsedDict) : Bool :=
  d.essentials.isSome || d.non_essentials.isSome || d.suggestions.isSome || d.extraKeys

structure AnalysisOutput where
  classification : ClassificationResult
  summary : Summary
deriving DecidableEq

/-- Lines 179-201 of the manual-entry tab: run the classification
client, and when the returned data is truthy produce the complete
classification record together with the numeric summary; otherwise
produce nothing. -/
def tab_text_analysis (out : RemoteOutcome) : Option AnalysisOutput :=
  match returnedData (classify_items_with_ai out) with
  | none => none
  | some d =>
    if dictTruthy d then
      some { classification := buildResult d
             summary := analysisSummary (buildResult d).essentials (buildResult d).non_essentials }
    else none

/-! ## Witness fixtures -/

/-- A poll response with a non-terminal status. -/
def runningResponse : OcrPollResponse := ⟨some "running", []⟩

/-- A succeeded poll response with two pages; the first page has a line
that trims to "Milk - 3" and a line of pure whitespace, the second has
"Bread - 2". -/
def succeededResponse : OcrPollResponse :=
  ⟨some "succeeded", [⟨[⟨" Milk - 3 "⟩, ⟨"  "⟩]⟩, ⟨[⟨"Bread - 2"⟩]⟩]⟩

/-- A failed poll response. -/
def failedResponse : OcrPollResponse := ⟨some "failed", []⟩

/-- A submission response carrying an operation location header. -/
def okSubmit : SubmitResponse := ⟨some "https://example.test/op/1", none⟩

/-! ## Claims -/

/-- Claim C1: for every run of the transcription poll loop in which the
remote job status never becomes terminal (neither succeeded nor
failed), polling performs exactly 60 poll attempts, each consecutive
pair separated by one 1-second sleep, performs no 61st attempt (every
polled attempt index is below 60), and returns the timeout sentinel
message. -/
theorem claim_c1 (submit : SubmitResponse) (responses : Nat → OcrPollResponse)
    (hop : truthyStr (pyOrStr submit.headerOperationLocation submit.bodyOperationLocation) = true)
    (hnt : ∀ i, i < 60 → nonterminal (responses i)) :
    extract_text_from_receipt submit responses = (timeoutMessage, fullTrace 0 60) ∧
    countPolls (fullTrace 0 60) = 60 ∧
    (∀ j, OcrEvent.poll j ∈ fullTrace 0 60 → j < 60) := by
  refine ⟨?_, countPolls_fullTrace 60 0, ?_⟩
  · have hloop : pollLoop responses 0 60 = (timeoutMessage, fullTrace 0 60) :=
      pollLoop_timeout responses 60 0 (by intro j hj; simpa using hnt j hj)
    simp [extract_text_from_receipt, hop, hloop]
  · intro j hj
    have := mem_fullTrace_poll 60 0 j hj
    omega

theorem claim_c1_witness :
    extract_text_from_receipt okSubmit (fun _ => runningResponse) =
      (timeoutMessage, fullTrace 0 60) ∧
    countPolls (fullTrace 0 60) = 60 ∧
    (∀ j, OcrEvent.poll j ∈ fullTrace 0 60 → j < 60) :=
  claim_c1 okSubmit (fun _ => runningResponse) (by decide)
    (by intro i _; exact (by decide : nonterminal runningResponse))

/-- Claim C2: if the polled job status is succeeded on attempt `k` with
`1 ≤ k ≤ 60` (all earlier attempts non-terminal), transcription stops
polling on that attempt — the event list ends with poll `k - 1` and
holds exactly `k` polls — and returns the flattening of all text lines
across all result pages in page order then line order, each line
trimmed with empty trimmed lines excluded, joined with newlines; when
the flattened list is empty it returns the no-text sentinel instead. -/
theorem claim_c2 (submit : SubmitResponse) (responses : Nat → OcrPollResponse)
    (hop : truthyStr (pyOrStr submit.headerOperationLocation submit.bodyOperationLocation) = true)
    (k : Nat) (hk1 : 1 ≤ k) (hk60 : k ≤ 60)
    (hpre : ∀ j, j < k - 1 → nonterminal (responses j))
    (hsucc : statusOf (responses (k - 1)) = "succeeded") :
    extract_text_from_receipt submit responses =
      ((if (extractedLines (responses (k - 1))).isEmpty then noTextMessage
        else String.intercalate "\n" (extractedLines (responses (k - 1)))),
       fullTrace 0 (k - 1) ++ [OcrEvent.poll (k - 1)]) ∧
    countPolls (fullTrace 0 (k - 1) ++ [OcrEvent.poll (k - 1)]) = k ∧
    extractedLines (responses (k - 1)) =
      ((responses (k - 1)).readResults.flatMap fun page =>
        (page.lines.map fun line => pyStrip line.text).filter fun txt => txt ≠ "") := by
  refine ⟨?_, ?_, rfl⟩
  · have hterm : pollAction (responses (0 + (k - 1))) =
        some (succeededMessage (responses (k - 1))) := by
      simp only [Nat.zero_add]
      simp [pollAction, hsucc]
    have hloop := pollLoop_terminal responses (succeededMessage (responses (k - 1)))
      (k - 1) 60 0 (by omega) (by intro j hj; simpa using hpre j hj) hterm
    simp only [Nat.zero_add] at hloop
    simp [extract_text_from_receipt, hop, hloop, succeededMessage]
  · rw [countPolls_append, countPolls_fullTrace]
    simp [countPolls]
    omega

theorem claim_c2_witness :
    extract_text_from_receipt okSubmit
        (fun i => if i < 2 then runningResponse else succeededResponse) =
      ("Milk - 3" ++ "\n" ++ "Bread - 2", fullTrace 0 2 ++ [OcrEvent.poll 2]) ∧
    countPolls (fullTrace 0 2 ++ [OcrEvent.poll 2]) = 3 := by
  have h := claim_c2 okSubmit
    (fun i => if i < 2 then runningResponse else succeededResponse)
    (by decide) 3 (by decide) (by decide) (by decide) (by decide)
  exact ⟨by rw [h.1]; decide, h.2.1⟩

/-- Claim C8: if the polled job status is failed on attempt `k` (all
earlier attempts non-terminal), transcription returns the OCR-failure
sentinel immediately from that attempt: the event list ends with poll
`k - 1`, holds exactly `k` polls, and no further polling happens. -/
theorem claim_c8 (submit : SubmitResponse) (responses : Nat → OcrPollResponse)
    (hop : truthyStr (pyOrStr submit.headerOperationLocation submit.bodyOperationLocation) = true)
    (k : Nat) (hk1 : 1 ≤ k) (hk60 : k ≤ 60)
    (hpre : ∀ j, j < k - 1 → nonterminal (responses j))
    (hfail : statusOf (responses (k - 1)) = "failed") :
    extract_text_from_receipt submit responses =
      (failedMessage, fullTrace 0 (k - 1) ++ [OcrEvent.poll (k - 1)]) ∧
    countPolls (fullTrace 0 (k - 1) ++ [OcrEvent.poll (k - 1)]) = k := by
  constructor
  · have hterm : pollAction (responses (0 + (k - 1))) = some failedMessage := by
      simp only [Nat.zero_add]
      have hne : statusOf (responses (k - 1)) ≠ "succeeded" := by
        rw [hfail]; decide
      simp [pollAction, hfail, hne]
    have hloop := pollLoop_terminal responses failedMessage
      (k - 1) 60 0 (by omega) (by intro j hj; simpa using hpre j hj) hterm
    simp only [Nat.zero_add] at hloop
    simp [extract_text_from_receipt, hop, hloop]
  · rw [countPolls_append, countPolls_fullTrace]
    simp [countPolls]
    omega

theorem claim_c8_witness :
    extract_text_from_receipt okSubmit
        (fun i => if i < 2 then runningResponse else failedResponse) =
      (failedMessage, fullTrace 0 2 ++ [OcrEvent.poll 2]) ∧
    countPolls (fullTrace 0 2 ++ [OcrEvent.poll 2]) = 3 :=
  claim_c8 okSubmit (fun i => if i < 2 then runningResponse else failedResponse)
    (by decide) 3 (by decide) (by decide) (by decide) (by decide)

/-- Claim C9: if the OCR submission response carries no job handle —
the operation-location URL is absent (or empty, hence falsy) in both
the response header and the response body — transcription returns the
protocol-error sentinel without entering the poll loop: the event list
is empty, zero polls are performed. -/
theorem claim_c9 (submit : SubmitResponse) (responses : Nat → OcrPollResponse)
    (hh : truthyStr submit.headerOperationLocation = false)
    (hb : truthyStr submit.bodyOperationLocation = false) :
    extract_text_from_receipt submit responses = (noOpLocationMessage, []) ∧
    countPolls (extract_text_from_receipt submit responses).2 = 0 := by
  have hfalse : truthyStr (pyOrStr submit.headerOperationLocation submit.bodyOperationLocation) = false := by
    rcases submit with ⟨a, b⟩
    cases a with
    | none => simpa [pyOrStr] using hb
    | some s =>
      simp only [truthyStr, decide_eq_false_iff_not, ne_eq, not_not] at hh
      subst hh
      simpa [pyOrStr] using hb
  have hmain : extract_text_from_receipt submit responses = (noOpLocationMessage, []) := by
    simp [extract_text_from_receipt, hfalse]
  exact ⟨hmain, by rw [hmain]; rfl⟩

theorem claim_c9_witness :
    extract_text_from_receipt ⟨some "", none⟩ (fun _ => runningResponse) =
      (noOpLocationMessage, []) ∧
    countPolls (extract_text_from_receipt ⟨some "", none⟩ (fun _ => runningResponse)).2 = 0 :=
  claim_c9 ⟨some "", none⟩ (fun _ => runningResponse) (by decide) (by decide)

/-- Claim C10 (implicit): the poll loop lowercases the remote status
string before comparing it, so succeeded and failed are recognized as
terminal regardless of letter case, and a response with no status field
is treated as non-terminal, in which case the loop sleeps and
continues with the next attempt. -/
theorem claim_c10 (r : OcrPollResponse) :
    (statusOf r = lowerStr (r.status.getD "")) ∧
    (∀ s, r.status = some s → lowerStr s = "succeeded" →
      pollAction r = some (succeededMessage r)) ∧
    (∀ s, r.status = some s → lowerStr s = "failed" →
      pollAction r = some failedMessage) ∧
    (r.status = none → pollAction r = none) ∧
    (∀ (responses : Nat → OcrPollResponse) (i fuel : Nat),
      responses i = r → pollAction r = none →
      pollLoop responses i (fuel + 1) =
        ((pollLoop responses (i + 1) fuel).1,
         OcrEvent.poll i :: OcrEvent.sleep :: (pollLoop responses (i + 1) fuel).2)) := by
  refine ⟨rfl, ?_, ?_, ?_, ?_⟩
  · intro s hs hlow
    have hst : statusOf r = "succeeded" := by simp [statusOf, hs, hlow]
    simp [pollAction, hst]
  · intro s hs hlow
    have hst : statusOf r = "failed" := by simp [statusOf, hs, hlow]
    have hne : statusOf r ≠ "succeeded" := by rw [hst]; decide
    simp [pollAction, hst, hne]
  · intro hnone
    have hst : statusOf r = "" := by rw [statusOf, hnone]; rfl
    have h1 : statusOf r ≠ "succeeded" := by rw [hst]; decide
    have h2 : statusOf r ≠ "failed" := by rw [hst]; decide
    simp [pollAction, h1, h2]
  · intro responses i fuel hri hnone
    simp [pollLoop, hri, hnone]

theorem claim_c10_witness :
    pollAction ⟨some "Succeeded", []⟩ = some (succeededMessage ⟨some "Succeeded", []⟩) ∧
    pollAction ⟨some "FAILED", []⟩ = some failedMessage ∧
    pollAction ⟨none, []⟩ = none :=
  ⟨(claim_c10 ⟨some "Succeeded", []⟩).2.1 "Succeeded" rfl (by decide),
   (claim_c10 ⟨some "FAILED", []⟩).2.2.1 "FAILED" rfl (by decide),
   (claim_c10 ⟨none, []⟩).2.2.2.1 rfl⟩

/-- Claim C3: for every sequence of line items whose prices are all
well-formed numbers, `_safe_sum` equals the arithmetic total of the
prices; an item whose price is missing or not parseable as a number
contributes exactly 0; and on every input the sum is a total function
of the per-item contributions (no error is ever raised). -/
theorem claim_c3 :
    (∀ items : List LineItem, (∀ it ∈ items, (priceValue? it.price).isSome) →
      _safe_sum items = (items.map fun it => (priceValue? it.price).getD 0).sum) ∧
    (∀ it : LineItem, priceValue? it.price = none → floatOfPrice it.price = 0) ∧
    (∀ items : List LineItem,
      _safe_sum items = (items.map fun it => floatOfPrice it.price).sum) := by
  refine ⟨?_, fun it h => floatOfPrice_of_none h, safe_sum_eq_sum⟩
  intro items hwf
  rw [safe_sum_eq_sum]
  congr 1
  apply List.map_congr_left
  intro it hit
  rcases Option.isSome_iff_exists.mp (hwf it hit) with ⟨q, hq⟩
  rw [floatOfPrice_of_value hq, hq]
  rfl

theorem claim_c3_witness :
    _safe_sum [⟨"Milk", 1, PriceField.num 3⟩, ⟨"Chips", 1, PriceField.numStr 4⟩] =
      (([⟨"Milk", 1, PriceField.num 3⟩, ⟨"Chips", 1, PriceField.numStr 4⟩] : List LineItem).map
        fun it => (priceValue? it.price).getD 0).sum ∧
    floatOfPrice (PriceField.badStr "abc") = 0 :=
  ⟨claim_c3.1 [⟨"Milk", 1, PriceField.num 3⟩, ⟨"Chips", 1, PriceField.numStr 4⟩] (by decide),
   claim_c3.2.1 ⟨"Mystery", 1, PriceField.badStr "abc"⟩ rfl⟩

/-- Claim C4: whenever the computed total spent equals 0, the savings
section — the only place the savings percentages (divisions by the
total) are computed — is not produced. -/
theorem claim_c4 (essentials non_essentials : List LineItem)
    (h : (analysisSummary essentials non_essentials).total_spent = 0) :
    (analysisSummary essentials non_essentials).savings = none := by
  have h' : _safe_sum essentials + _safe_sum non_essentials = 0 := h
  simp [analysisSummary, h']

theorem claim_c4_witness :
    (analysisSummary [] []).savings = none :=
  claim_c4 [] [] (by norm_num [analysisSummary, _safe_sum])

/-- Claim C5: for all item lists with non-negative essentials and
non-essentials totals, the derived savings scenarios satisfy
`saving_remove = non_essentials_total`,
`saving_half = non_essentials_total / 2`, and
`total_spent = essentials_total + non_essentials_total`. -/
theorem claim_c5 (essentials non_essentials : List LineItem)
    (he : 0 ≤ _safe_sum essentials) (hn : 0 ≤ _safe_sum non_essentials) :
    (analysisSummary essentials non_essentials).saving_remove =
      (analysisSummary essentials non_essentials).non_essentials_total ∧
    (analysisSummary essentials non_essentials).saving_half =
      (analysisSummary essentials non_essentials).non_essentials_total / 2 ∧
    (analysisSummary essentials non_essentials).total_spent =
      (analysisSummary essentials non_essentials).essentials_total +
        (analysisSummary essentials non_essentials).non_essentials_total :=
  ⟨rfl, rfl, rfl⟩

theorem claim_c5_witness :
    (analysisSummary [⟨"Milk", 1, PriceField.num 3⟩] [⟨"Chips", 1, PriceField.num 4⟩]).saving_remove =
      (analysisSummary [⟨"Milk", 1, PriceField.num 3⟩] [⟨"Chips", 1, PriceField.num 4⟩]).non_essentials_total ∧
    (analysisSummary [⟨"Milk", 1, PriceField.num 3⟩] [⟨"Chips", 1, PriceField.num 4⟩]).saving_half =
      (analysisSummary [⟨"Milk", 1, PriceField.num 3⟩] [⟨"Chips", 1, PriceField.num 4⟩]).non_essentials_total / 2 ∧
    (analysisSummary [⟨"Milk", 1, PriceField.num 3⟩] [⟨"Chips", 1, PriceField.num 4⟩]).total_spent =
      (analysisSummary [⟨"Milk", 1, PriceField.num 3⟩] [⟨"Chips", 1, PriceField.num 4⟩]).essentials_total +
        (analysisSummary [⟨"Milk", 1, PriceField.num 3⟩] [⟨"Chips", 1, PriceField.num 4⟩]).non_essentials_total :=
  claim_c5 [⟨"Milk", 1, PriceField.num 3⟩] [⟨"Chips", 1, PriceField.num 4⟩]
    (by norm_num [_safe_sum, floatOfPrice]) (by norm_num [_safe_sum, floatOfPrice])

/-- Claim C6: if parsing the remote completion content as JSON fails,
the classification client yields the malformed-response outcome
carrying the raw unparsed content; and on every failure path (HTTP
error, parse failure, or any other exception) the client returns
`None` to its caller instead of propagating an unhandled fault. -/
theorem claim_c6 (out : RemoteOutcome) :
    (∀ raw, out = RemoteOutcome.completion (CompletionContent.unparseable raw) →
      classify_items_with_ai out = ClassifyOutcome.malformedShown raw) ∧
    (isParseableCompletion out = false →
      returnedData (classify_items_with_ai out) = none) := by
  constructor
  · intro raw h
    subst h
    rfl
  · intro h
    cases out with
    | completion c =>
      cases c with
      | parseable d => simp [isParseableCompletion] at h
      | unparseable raw => rfl
    | httpError b => rfl
    | bodyNotJson => rfl
    | otherExn m => rfl

theorem claim_c6_witness :
    classify_items_with_ai (RemoteOutcome.completion (CompletionContent.unparseable "not json")) =
      ClassifyOutcome.malformedShown "not json" ∧
    returnedData (classify_items_with_ai (RemoteOutcome.httpError "server error")) = none :=
  ⟨(claim_c6 (RemoteOutcome.completion (CompletionContent.unparseable "not json"))).1 "not json" rfl,
   (claim_c6 (RemoteOutcome.httpError "server error")).2 rfl⟩

/-- Claim C7: the classification pipeline is all-or-nothing — for
every remote outcome it either produces no analysis output at all, or
an output whose classification record is complete: the essentials,
non-essentials and suggestions sequences are all populated from the
returned dict, each defaulting to the empty list when its key is
absent. -/
theorem claim_c7 (out : RemoteOutcome) :
    tab_text_analysis out = none ∨
    ∃ d : ParsedDict,
      returnedData (classify_items_with_ai out) = some d ∧
      dictTruthy d = true ∧
      tab_text_analysis out =
        some { classification := buildResult d
               summary := analysisSummary (buildResult d).essentials (buildResult d).non_essentials } ∧
      (buildResult d).essentials = d.essentials.getD [] ∧
      (buildResult d).non_essentials = d.non_essentials.getD [] ∧
      (buildResult d).suggestions = d.suggestions.getD [] := by
  rcases hret : returnedData (classify_items_with_ai out) with _ | d
  · left
    unfold tab_text_analysis
    rw [hret]
  · by_cases ht : dictTruthy d = true
    · right
      refine ⟨d, rfl, ht, ?_, rfl, rfl, rfl⟩
      unfold tab_text_analysis
      rw [hret]
      simp [ht]
    · left
      unfold tab_text_analysis
      rw [hret]
      simp [ht]

/-- A parsed dict with all three keys present. -/
def parsedFixture : ParsedDict :=
  ⟨some [⟨"Milk", 1, PriceField.num 3⟩], some [⟨"Chips", 1, PriceField.num 4⟩],
   some ["Buy fewer chips"], false⟩

theorem claim_c7_witness :
    tab_text_analysis (RemoteOutcome.completion (CompletionContent.parseable parsedFixture)) = none ∨
    ∃ d : ParsedDict,
      returnedData (classify_items_with_ai
        (RemoteOutcome.completion (CompletionContent.parseable parsedFixture))) = some d ∧
      dictTruthy d = true ∧
      tab_text_analysis (RemoteOutcome.completion (CompletionContent.parseable parsedFixture)) =
        some { classification := buildResult d
               summary := analysisSummary (buildResult d).essentials (buildResult d).non_essentials } ∧
      (buildResult d).essentials = d.essentials.getD [] ∧
      (buildResult d).non_essentials = d.non_essentials.getD [] ∧
      (buildResult d).suggestions = d.suggestions.getD [] :=
  claim_c7 (RemoteOutcome.completion (CompletionContent.parseable parsedFixture))

end BudgetSaver
